import Mathlib

/-!
Verification development for the Aether-Weather repository.

The definitions below are a shallow embedding of the repository's
location/weather resolution pipeline and its AI-enrichment client
(`services/geminiService.ts`, `App.tsx`, `types.ts`).  JavaScript numbers are
modelled as exact rationals; the extra constructor `JNum.nan` stands for the
non-numeric values `undefined`/`NaN` that arise from reading a missing object
field or an out-of-range array index (both behave identically for every
operation the code performs on them: `Math.round` maps them to `NaN`, lookups
miss, and they fail every "is an integer" test).  Remote calls (geocoding,
forecast, generative provider) are modelled by an explicit reply environment
enumerating the outcomes distinguished by the code.
-/

namespace AetherWeather

/-- A JavaScript numeric value: either a finite number (modelled exactly as a
rational) or `nan`, standing for `undefined`/`NaN`. -/
inductive JNum where
  | nan : JNum
  | num : ℚ → JNum
deriving DecidableEq, Repr

/-- `Math.round`: round half toward positive infinity; `NaN`/`undefined` stay
non-numeric (`Math.round(undefined)` is `NaN`). -/
def jround : JNum → JNum
  | .nan => .nan
  | .num q => .num ((⌊q + 1/2⌋ : ℤ) : ℚ)

/-- Whether a JavaScript numeric value is a (finite) integer. -/
def JNum.isIntB : JNum → Bool
  | .nan => false
  | .num q => q.den == 1

/-- JavaScript array read `xs[i]` on a numeric array: out-of-range reads give
`undefined` instead of failing. -/
def listGetN (xs : List ℚ) (i : Nat) : JNum :=
  match xs.get? i with
  | some q => .num q
  | none => .nan

/-- The WMO code table of `wmoToCondition` (geminiService.ts lines 9-25). -/
def wmoLookup (c : ℚ) : Option String :=
  if c = 0 then some "Clear Sky"
  else if c = 1 then some "Mainly Clear"
  else if c = 2 then some "Partly Cloudy"
  else if c = 3 then some "Overcast"
  else if c = 45 then some "Fog"
  else if c = 48 then some "Depositing Rime Fog"
  else if c = 51 then some "Light Drizzle"
  else if c = 53 then some "Moderate Drizzle"
  else if c = 55 then some "Dense Drizzle"
  else if c = 56 then some "Light Freezing Drizzle"
  else if c = 57 then some "Dense Freezing Drizzle"
  else if c = 61 then some "Slight Rain"
  else if c = 63 then some "Moderate Rain"
  else if c = 65 then some "Heavy Rain"
  else if c = 66 then some "Light Freezing Rain"
  else if c = 67 then some "Heavy Freezing Rain"
  else if c = 71 then some "Slight Snow"
  else if c = 73 then some "Moderate Snow"
  else if c = 75 then some "Heavy Snow"
  else if c = 77 then some "Snow Grains"
  else if c = 80 then some "Slight Rain Showers"
  else if c = 81 then some "Moderate Rain Showers"
  else if c = 82 then some "Violent Rain Showers"
  else if c = 85 then some "Slight Snow Showers"
  else if c = 86 then some "Heavy Snow Showers"
  else if c = 95 then some "Thunderstorm"
  else if c = 96 then some "Thunderstorm with Hail"
  else if c = 99 then some "Heavy Thunderstorm with Hail"
  else none

/-- `wmoToCondition(code)`: `map[code] || "Unknown"`.  A non-numeric code
(`undefined` read) also misses the map and yields `"Unknown"`; no mapped label
is the empty string, so JS truthiness coincides with presence. -/
def wmoToCondition : JNum → String
  | .nan => "Unknown"
  | .num c => (wmoLookup c).getD "Unknown"

/-- `hourly` part of the raw Open-Meteo payload: parallel arrays. -/
structure RawHourly where
  time : List String
  temperature_2m : List ℚ
deriving DecidableEq, Repr

/-- `daily` part of the raw Open-Meteo payload: parallel arrays. -/
structure RawDaily where
  time : List String
  weather_code : List ℚ
  temperature_2m_max : List ℚ
  temperature_2m_min : List ℚ
  sunrise : List String
  sunset : List String
  uv_index_max : List ℚ
deriving DecidableEq, Repr

/-- `current` part of the raw Open-Meteo payload.  Fields the normalizer never
reads (precipitation flags, `is_day`, ...) are omitted. -/
structure RawCurrent where
  temperature_2m : JNum
  relative_humidity_2m : JNum
  apparent_temperature : JNum
  weather_code : JNum
  surface_pressure : JNum
  wind_speed_10m : JNum
deriving DecidableEq, Repr

/-- The raw forecast payload (`data` after `res.json()`). -/
structure RawPayload where
  current : RawCurrent
  hourly : RawHourly
  daily : RawDaily
deriving DecidableEq, Repr

/-- `HourlyForecast` of types.ts. -/
structure HourlyForecast where
  time : String
  temp : JNum
deriving DecidableEq, Repr

/-- `DailyForecast` of types.ts. -/
structure DailyForecast where
  day : String
  high : JNum
  low : JNum
  condition : String
deriving DecidableEq, Repr

/-- `WeatherData` of types.ts (the canonical snapshot). -/
structure WeatherData where
  city : String
  country : String
  currentTemp : JNum
  condition : String
  feelsLike : JNum
  humidity : JNum
  windSpeed : JNum
  pressure : JNum
  uvIndex : JNum
  sunrise : String
  sunset : String
  hourly : List HourlyForecast
  daily : List DailyForecast
  groundingSource : String
deriving DecidableEq, Repr

/-- The locale-dependent `Date` formatters the normalizer uses.  They are
opaque to the pipeline; each is total on ISO strings. -/
structure LocaleFmt where
  hourFmt : String → String
  clockFmt : String → String
  dayFmt : String → String

/-- The hourly loop of `getWeatherData` (lines 117-127): for
`i = start .. start+fuel-1`, if `hourly.time[i]` is truthy (present and
nonempty) push an entry, otherwise skip; out-of-range reads are skipped, so the
window is truncated when the series ends. -/
def hourlyWindowAux (times : List String) (temps : List ℚ) (hourFmt : String → String) :
    Nat → Nat → List HourlyForecast
  | _, 0 => []
  | i, fuel + 1 =>
    match times.get? i with
    | some s =>
      if s = "" then hourlyWindowAux times temps hourFmt (i + 1) fuel
      else { time := hourFmt s, temp := jround (listGetN temps i) } ::
        hourlyWindowAux times temps hourFmt (i + 1) fuel
    | none => hourlyWindowAux times temps hourFmt (i + 1) fuel

/-- The hourly window: 24 iterations starting at the current hour index. -/
def hourlyWindow (hourly : RawHourly) (startIdx : Nat) (hourFmt : String → String) :
    List HourlyForecast :=
  hourlyWindowAux hourly.time hourly.temperature_2m hourFmt startIdx 24

/-- One iteration of the daily loop of `getWeatherData` (lines 133-141).  There
is no bounds check: past the end of `daily.time`, `new Date(undefined)` is an
invalid date whose locale rendering is the fixed string `"Invalid Date"`, and
`Math.round(undefined)` is `NaN`. -/
def dailyEntry (daily : RawDaily) (dayFmt : String → String) (i : Nat) : DailyForecast :=
  { day :=
      match daily.time.get? i with
      | some s => dayFmt s
      | none => "Invalid Date"
    high := jround (listGetN daily.temperature_2m_max i)
    low := jround (listGetN daily.temperature_2m_min i)
    condition := wmoToCondition (listGetN daily.weather_code i) }

/-- The daily window: indices `0..4` unconditionally (`for i in 0..<5`). -/
def dailyWindow (daily : RawDaily) (dayFmt : String → String) : List DailyForecast :=
  (List.range 5).map (dailyEntry daily dayFmt)

/-- Locale time rendering of `daily.sunrise[0]` / `daily.sunset[0]`: an
out-of-range read is an invalid date, rendered `"Invalid Date"`. -/
def clockOfIso (clockFmt : String → String) : Option String → String
  | some s => clockFmt s
  | none => "Invalid Date"

/-- The normalization step of `getWeatherData` (lines 111-162): map the raw
payload to `WeatherData`.  `currentHourIndex` is `new Date().getHours()`. -/
def normalize (raw : RawPayload) (city country : String) (currentHourIndex : Nat)
    (fmt : LocaleFmt) : WeatherData :=
  { city := city
    country := country
    currentTemp := jround raw.current.temperature_2m
    condition := wmoToCondition raw.current.weather_code
    feelsLike := jround raw.current.apparent_temperature
    humidity := raw.current.relative_humidity_2m
    windSpeed := jround raw.current.wind_speed_10m
    pressure := jround raw.current.surface_pressure
    uvIndex := jround (listGetN raw.daily.uv_index_max 0)
    sunrise := clockOfIso fmt.clockFmt (raw.daily.sunrise.get? 0)
    sunset := clockOfIso fmt.clockFmt (raw.daily.sunset.get? 0)
    hourly := hourlyWindow raw.hourly currentHourIndex fmt.hourFmt
    daily := dailyWindow raw.daily fmt.dayFmt
    groundingSource := "Open-Meteo (National Weather Services)" }

/-! ### Geocoding and location resolution -/

/-- One candidate item of the geocoding response (`data.results[i]`); `admin1`
may be absent. -/
structure GeoItem where
  name : String
  admin1 : Option String
  country : String
  latitude : ℚ
  longitude : ℚ
deriving DecidableEq, Repr

/-- `CitySearchResult` of types.ts (coordinates always set by `searchCity`). -/
structure CitySearchResult where
  name : String
  location : String
  lat : ℚ
  lng : ℚ
deriving DecidableEq, Repr

/-- The outcomes of one geocoding request that `searchCity` distinguishes:
the `fetch`/`res.json()` chain throws; the parsed body has no `results`
array; or it has one, with `items` candidates. -/
inductive GeoReply where
  | transportError : GeoReply
  | missingResults : GeoReply
  | results : List GeoItem → GeoReply
deriving DecidableEq, Repr

/-- The candidate mapping of `searchCity` (lines 41-46):
`location` is a template join where an absent `admin1` renders as `''`
(`item.admin1 || ''`). -/
def toCityResult (item : GeoItem) : CitySearchResult :=
  { name := item.name
    location := (item.admin1.getD "") ++ ", " ++ item.country
    lat := item.latitude
    lng := item.longitude }

/-- `searchCity` (geminiService.ts lines 31-51).  The early return covers
`!query || query.length < 2`; the `catch` turns a transport/parse failure into
`[]`; a missing `results` field also yields `[]`. -/
def searchCity (reply : GeoReply) (query : String) : List CitySearchResult :=
  if query = "" ∨ query.length < 2 then []
  else
    match reply with
    | .transportError => []
    | .missingResults => []
    | .results items => items.map toCityResult

/-- JavaScript `String.prototype.trim`: strip whitespace from both ends. -/
def jsTrim (s : String) : String :=
  String.mk (((s.data.dropWhile Char.isWhitespace).reverse.dropWhile Char.isWhitespace).reverse)

/-- JavaScript `str.split(',')` over the character list. -/
def jsSplitCommaAux : List Char → List Char → List String
  | [], acc => [String.mk acc.reverse]
  | c :: cs, acc =>
    if c = ',' then String.mk acc.reverse :: jsSplitCommaAux cs []
    else jsSplitCommaAux cs (c :: acc)

/-- JavaScript `str.split(',')`. -/
def jsSplitComma (s : String) : List String :=
  jsSplitCommaAux s.data []

/-- Digit run to a natural number. -/
def digitsToNat (ds : List Char) : Nat :=
  ds.foldl (fun a c => a * 10 + (c.toNat - 48)) 0

/-- Exponent suffix of JavaScript `parseFloat`: `e`/`E`, optional sign, digit
run.  Consumed only when at least one digit follows (`parseFloat("1e")` is
`1`). -/
def applyExp (base : ℚ) : List Char → ℚ
  | 'e' :: r => applyExpSigned base r
  | 'E' :: r => applyExpSigned base r
  | _ => base
where
  applyExpSigned (base : ℚ) (r : List Char) : ℚ :=
    let signed : Int × List Char :=
      match r with
      | '+' :: t => (1, t)
      | '-' :: t => (-1, t)
      | _ => (1, r)
    let ds := signed.2.takeWhile Char.isDigit
    if ds.isEmpty then base
    else base * (10 : ℚ) ^ (signed.1 * (digitsToNat ds : ℤ))

/-- Unsigned part of JavaScript `parseFloat`: a digit run, an optional
fraction, an optional exponent; trailing junk is ignored; no digits at all is
`NaN` (`none`). -/
def parseUnsigned (cs : List Char) : Option ℚ :=
  let intPart := cs.takeWhile Char.isDigit
  let rest := cs.dropWhile Char.isDigit
  let fracSplit : List Char × List Char :=
    match rest with
    | '.' :: r => (r.takeWhile Char.isDigit, r.dropWhile Char.isDigit)
    | _ => ([], rest)
  if intPart.isEmpty ∧ fracSplit.1.isEmpty then none
  else
    let base : ℚ :=
      (digitsToNat intPart : ℚ) + (digitsToNat fracSplit.1 : ℚ) / (10 : ℚ) ^ fracSplit.1.length
    some (applyExp base fracSplit.2)

/-- JavaScript `parseFloat` restricted to decimal literals: leading whitespace
skipped, optional sign, then the unsigned form; `none` models `NaN` (the code
only tests `isNaN` and uses the value).  The `Infinity` literal is not
modelled; no claim involves it. -/
def parseFloat? (s : String) : Option ℚ :=
  match s.data.dropWhile Char.isWhitespace with
  | '-' :: r => (parseUnsigned r).map Neg.neg
  | '+' :: r => parseUnsigned r
  | cs => parseUnsigned cs

/-- The coordinate-pair guard of `getWeatherData` (lines 62-67): the input
contains a comma and the first two trimmed comma-separated segments both
`parseFloat` to numbers; on success, the parsed pair. -/
def coordGuard (input : String) : Option (ℚ × ℚ) :=
  if ',' ∈ input.data then
    let parts := (jsSplitComma input).map jsTrim
    match parseFloat? (parts.getD 0 ""), parseFloat? (parts.getD 1 "") with
    | some a, some b => some (a, b)
    | _, _ => none
  else none

/-- The `{lat, lng, city, country}` tuple that step 1 of `getWeatherData`
produces (the spec's `ResolvedLocation`). -/
structure ResolvedLoc where
  lat : ℚ
  lng : ℚ
  city : String
  country : String
deriving DecidableEq, Repr

/-- Step 1 of `getWeatherData` (lines 58-91), factored out: resolve the input
to coordinates.  The second component records whether the geocoding
collaborator (`searchCity`) was invoked.  The comma-with-failed-parse branch
and the no-comma branch of the source run the same search code; both are the
`coordGuard input = none` case here. -/
def resolveLocation (reply : GeoReply) (input : String) :
    Except String ResolvedLoc × Bool :=
  match coordGuard input with
  | some (a, b) =>
    (.ok { lat := a, lng := b, city := "Current Location", country := "" }, false)
  | none =>
    match searchCity reply input with
    | [] => (.error "City not found", true)
    | r :: _ => (.ok { lat := r.lat, lng := r.lng, city := r.name, country := r.location }, true)

/-! ### Forecast fetch and the full snapshot pipeline -/

/-- The outcomes of the forecast request that `getWeatherData` distinguishes:
`fetch`/`res.json()` rejects; `res.ok` is false (`throw new Error("Weather API
Error")`); or a parsed payload. -/
inductive ForecastReply where
  | transportError : ForecastReply
  | httpError : ForecastReply
  | payload : RawPayload → ForecastReply

/-- `getWeatherData` (lines 57-168): resolve, fetch, normalize.  The `catch`
at the end logs and rethrows, so every failure propagates to the caller.  The
message of a rejected `fetch` is environment-dependent; it is modelled by a
fixed string. -/
def getWeatherData (geo : GeoReply) (fc : ForecastReply) (input : String)
    (currentHourIndex : Nat) (fmt : LocaleFmt) : Except String WeatherData :=
  match (resolveLocation geo input).1 with
  | .error e => .error e
  | .ok loc =>
    match fc with
    | .transportError => .error "NetworkError when attempting to fetch resource"
    | .httpError => .error "Weather API Error"
    | .payload raw => .ok (normalize raw loc.city loc.country currentHourIndex fmt)

/-! ### AI enrichment client -/

/-- JavaScript exceptions the enrichment client can surface: the provider
request itself rejecting, or `JSON.parse` throwing `SyntaxError`. -/
inductive JsErr where
  | requestFailed : JsErr
  | jsonParseError : JsErr
deriving DecidableEq, Repr

/-- A parsed JSON value (what `JSON.parse` returns on success). -/
inductive Json where
  | null : Json
  | bool : Bool → Json
  | num : ℚ → Json
  | str : String → Json
  | arr : List Json → Json
  | obj : List (String × Json) → Json

/-- JavaScript property read `j["k"]` on a parsed value: `undefined` (`none`)
when the key is missing or the value is not an object. -/
def jGet : Json → String → Option Json
  | .obj fields, k => (fields.find? (fun p => p.1 = k)).map Prod.snd
  | _, _ => none

/-- Outcome of one `generateContent` call as the client observes it: the
request rejects, or it resolves with a `text` that is either falsy (absent or
empty) or a nonempty string.  For the deep-analysis call the `parse` component
is the outcome of `JSON.parse` on that nonempty text (`none` = `SyntaxError`). -/
inductive GenReply where
  | requestError : GenReply
  | response : Option String → GenReply

/-- JavaScript `t || ""`: the empty-string fallback of `getQuickSummary`. -/
def jsOrEmpty : Option String → String
  | none => ""
  | some s => if s = "" then "" else s

/-- `getQuickSummary` (geminiService.ts lines 213-220).  There is no
`try`/`catch`: a rejected `generateContent` call propagates; a resolved call
yields `response.text || ""`. -/
def getQuickSummary : GenReply → Except JsErr String
  | .requestError => .error .requestFailed
  | .response t => .ok (jsOrEmpty t)

/-- Outcome of the deep-analysis `generateContent` call: the request rejects,
or resolves with `textTruthy` telling whether `response.text` is a nonempty
string and, when it is, `parse` the outcome of `JSON.parse` on it. -/
inductive DeepReply where
  | requestError : DeepReply
  | response : Bool → Option Json → DeepReply

/-- `getDeepAnalysis` (geminiService.ts lines 174-207).  The returned value is
`JSON.parse(response.text || "{}")`: a falsy text parses the literal `"{}"`
into the empty object; a nonempty text that fails to parse throws
`SyntaxError`; a parsed value is returned as-is, with no field defaulting. -/
def getDeepAnalysis : DeepReply → Except JsErr Json
  | .requestError => .error .requestFailed
  | .response false _ => .ok (.obj [])
  | .response true none => .error .jsonParseError
  | .response true (some j) => .ok j

/-! ### Caller state transitions (App.tsx) -/

/-- The slice of the App component state the claims talk about. -/
structure AppState where
  weather : Option WeatherData
  error : Option String
  analysis : Option Json
  quickSummary : String
  loading : Bool
  aiLoading : Bool

/-- `fetchWeather` (App.tsx lines 58-81) as a state transition.  On entry it
clears `error` and `analysis`; on `getWeatherData` failure it sets the fixed
error banner; on success it stores the snapshot and fires
`getQuickSummary(data).then(setQuickSummary)` with no rejection handler, so
`quickSummary` is updated only when the summary promise resolves.  `finally`
clears `loading`. -/
def fetchWeatherStep (st : AppState) (geo : GeoReply) (fc : ForecastReply)
    (quick : GenReply) (input : String) (currentHourIndex : Nat) (fmt : LocaleFmt) :
    AppState :=
  match getWeatherData geo fc input currentHourIndex fmt with
  | .error _ =>
    { st with
      error := some "Failed to fetch weather. Please try again."
      analysis := none
      loading := false }
  | .ok data =>
    let st1 : AppState :=
      { st with weather := some data, error := none, analysis := none, loading := false }
    match getQuickSummary quick with
    | .ok s => { st1 with quickSummary := s }
    | .error _ => st1

/-- `handleDeepAnalysis` (App.tsx lines 95-106) as a state transition: no-op
without a snapshot; on success store the result; on failure only
`console.error` — the stored analysis is untouched; `finally` clears
`aiLoading`. -/
def handleDeepAnalysis (st : AppState) (reply : DeepReply) : AppState :=
  match st.weather with
  | none => st
  | some _ =>
    match getDeepAnalysis reply with
    | .ok r => { st with analysis := some r, aiLoading := false }
    | .error _ => { st with aiLoading := false }

/-! ### Helper lemmas -/

/-- Rounding a finite number yields an integer. -/
theorem jround_isIntB (q : ℚ) : (jround (.num q)).isIntB = true := by
  simp only [jround, JNum.isIntB, beq_iff_eq]
  exact Rat.den_intCast _

/-- The hourly loop emits at most `min fuel (remaining entries)` items. -/
theorem hourlyWindowAux_length_le (times : List String) (temps : List ℚ)
    (hf : String → String) :
    ∀ fuel i, (hourlyWindowAux times temps hf i fuel).length ≤
      min fuel (times.length - i) := by
  intro fuel
  induction fuel with
  | zero => intro i; simp [hourlyWindowAux]
  | succ n ih =>
    intro i
    have hrec := ih (i + 1)
    cases hg : times.get? i with
    | none =>
      have hlen : times.length ≤ i := List.get?_eq_none.1 hg
      simp only [hourlyWindowAux, hg]
      omega
    | some s =>
      have hlen : i < times.length := by
        rcases List.get?_eq_some.1 hg with ⟨h, _⟩
        exact h
      by_cases hs : s = ""
      · simp only [hourlyWindowAux, hg, if_pos hs]
        omega
      · simp only [hourlyWindowAux, hg, if_neg hs, List.length_cons]
        omega

/-- Every item the hourly loop emits comes from an in-range source index at or
after the start. -/
theorem hourlyWindowAux_mem (times : List String) (temps : List ℚ)
    (hf : String → String) :
    ∀ fuel i e, e ∈ hourlyWindowAux times temps hf i fuel →
      ∃ j s, i ≤ j ∧ times.get? j = some s ∧ s ≠ "" ∧
        e = { time := hf s, temp := jround (listGetN temps j) } := by
  intro fuel
  induction fuel with
  | zero => intro i e he; simp [hourlyWindowAux] at he
  | succ n ih =>
    intro i e he
    cases hg : times.get? i with
    | none =>
      simp only [hourlyWindowAux, hg] at he
      obtain ⟨j, s, hij, h2, h3, h4⟩ := ih (i + 1) e he
      exact ⟨j, s, by omega, h2, h3, h4⟩
    | some s =>
      by_cases hs : s = ""
      · simp only [hourlyWindowAux, hg, if_pos hs] at he
        obtain ⟨j, s', hij, h2, h3, h4⟩ := ih (i + 1) e he
        exact ⟨j, s', by omega, h2, h3, h4⟩
      · simp only [hourlyWindowAux, hg, if_neg hs] at he
        rcases List.mem_cons.1 he with h | h
        · exact ⟨i, s, le_refl i, hg, hs, h⟩
        · obtain ⟨j, s', hij, h2, h3, h4⟩ := ih (i + 1) e h
          exact ⟨j, s', by omega, h2, h3, h4⟩

/-- The daily window is the image of the index range `0..4`. -/
theorem dailyWindow_get? (daily : RawDaily) (df : String → String) (j : Nat)
    (hj : j < 5) : (dailyWindow daily df).get? j = some (dailyEntry daily df j) := by
  simp only [dailyWindow, List.get?_eq_getElem?, List.getElem?_map, List.getElem?_range hj,
    Option.map_some']

/-! ### Concrete fixtures for witnesses and counterexamples -/

/-- Identity locale formatters (a fixed locale choice). -/
def fmtId : LocaleFmt := ⟨id, id, id⟩

/-- A current block with no numeric fields. -/
def nanCurrent : RawCurrent :=
  { temperature_2m := .nan
    relative_humidity_2m := .nan
    apparent_temperature := .nan
    weather_code := .nan
    surface_pressure := .nan
    wind_speed_10m := .nan }

/-- A payload whose daily series has only 2 entries (a provider truncation at a
day boundary). -/
def shortDailyRaw : RawPayload :=
  { current := nanCurrent
    hourly := { time := ["h0", "h1"], temperature_2m := [] }
    daily :=
      { time := ["d0", "d1"]
        weather_code := []
        temperature_2m_max := []
        temperature_2m_min := []
        sunrise := []
        sunset := []
        uv_index_max := [] } }

/-- A payload whose daily series has the full 5 entries. -/
def fiveDayRaw : RawPayload :=
  { current := nanCurrent
    hourly := { time := [], temperature_2m := [] }
    daily :=
      { time := ["d0", "d1", "d2", "d3", "d4"]
        weather_code := []
        temperature_2m_max := []
        temperature_2m_min := []
        sunrise := []
        sunset := []
        uv_index_max := [] } }

/-- A short hourly series (tail beyond index 2 missing). -/
def shortHourly : RawHourly := { time := ["t0", "t1", "t2"], temperature_2m := [] }

/-! ### C2: normalization never fails / truncation -/

/-- C2 counterexample: with a 2-entry daily source the daily output is NOT
truncated — it still has 5 entries, the out-of-range ones filled with the
invalid-date/NaN placeholders, so the claim's "the corresponding output series
is truncated" is false for the daily series. -/
theorem normalize_short_daily_not_truncated :
    shortDailyRaw.daily.time.length = 2
    ∧ (normalize shortDailyRaw "New York" "" 0 fmtId).daily.length = 5
    ∧ (normalize shortDailyRaw "New York" "" 0 fmtId).daily.get? 4 =
        some { day := "Invalid Date", high := .nan, low := .nan, condition := "Unknown" } :=
  ⟨rfl, rfl, rfl⟩

/-- C2 (amended): normalization is total and never throws: the hourly window is
truncated when the hourly series is short, while a short daily series still
yields exactly 5 daily entries, the out-of-range positions holding the
invalid-date/NaN placeholder entry; a `WeatherData` is produced in all cases. -/
theorem normalize_amended (raw : RawPayload) (city country : String) (hour : Nat)
    (fmt : LocaleFmt) :
    (normalize raw city country hour fmt).hourly.length ≤
      min 24 (raw.hourly.time.length - hour)
    ∧ (normalize raw city country hour fmt).daily.length = 5
    ∧ ∀ j, j < 5 → raw.daily.time.length ≤ j →
        (normalize raw city country hour fmt).daily.get? j = some
          { day := "Invalid Date"
            high := jround (listGetN raw.daily.temperature_2m_max j)
            low := jround (listGetN raw.daily.temperature_2m_min j)
            condition := wmoToCondition (listGetN raw.daily.weather_code j) } := by
  refine ⟨hourlyWindowAux_length_le _ _ _ 24 hour, by simp [normalize, dailyWindow], ?_⟩
  intro j hj hlen
  rw [show (normalize raw city country hour fmt).daily = dailyWindow raw.daily fmt.dayFmt
      from rfl, dailyWindow_get? raw.daily fmt.dayFmt j hj]
  have ht : raw.daily.time[j]? = none := List.getElem?_eq_none hlen
  simp [dailyEntry, ht]

/-- C2 witness: the amended statement at the concrete short payload. -/
theorem normalize_amended_witness :
    (normalize shortDailyRaw "New York" "" 9 fmtId).hourly.length ≤
      min 24 (shortDailyRaw.hourly.time.length - 9)
    ∧ (normalize shortDailyRaw "New York" "" 9 fmtId).daily.length = 5
    ∧ (normalize shortDailyRaw "New York" "" 9 fmtId).daily.get? 3 = some
        { day := "Invalid Date"
          high := jround (listGetN shortDailyRaw.daily.temperature_2m_max 3)
          low := jround (listGetN shortDailyRaw.daily.temperature_2m_min 3)
          condition := wmoToCondition (listGetN shortDailyRaw.daily.weather_code 3) } := by
  have h := normalize_amended shortDailyRaw "New York" "" 9 fmtId
  exact ⟨h.1, h.2.1, h.2.2 3 (by decide) (by decide)⟩

/-! ### C3: hourly windowing bounds -/

/-- C3: the hourly window never has more than 24 entries, never more than the
entries remaining from the start index (`len(result) <= min(24, len(source) -
startIndex)`, with the natural truncated subtraction), and every emitted entry
is built from a source index that exists (never reads past the end). -/
theorem hourly_window_bounds (hourly : RawHourly) (start : Nat)
    (hf : String → String) :
    (hourlyWindow hourly start hf).length ≤ min 24 (hourly.time.length - start)
    ∧ ∀ e ∈ hourlyWindow hourly start hf,
        ∃ j s, start ≤ j ∧ hourly.time.get? j = some s ∧
          e = { time := hf s, temp := jround (listGetN hourly.temperature_2m j) } := by
  refine ⟨hourlyWindowAux_length_le _ _ _ 24 start, fun e he => ?_⟩
  obtain ⟨j, s, hij, h2, _, h4⟩ :=
    hourlyWindowAux_mem hourly.time hourly.temperature_2m hf 24 start e he
  exact ⟨j, s, hij, h2, h4⟩

/-- C3 witness: the bounds at a concrete 3-entry series with start index 1. -/
theorem hourly_window_bounds_witness :
    (hourlyWindow shortHourly 1 id).length ≤ min 24 (shortHourly.time.length - 1)
    ∧ ∃ j s, 1 ≤ j ∧ shortHourly.time.get? j = some s ∧
        ({ time := "t1", temp := JNum.nan } : HourlyForecast) =
          { time := id s, temp := jround (listGetN shortHourly.temperature_2m j) } := by
  refine ⟨(hourly_window_bounds shortHourly 1 id).1, ?_⟩
  exact (hourly_window_bounds shortHourly 1 id).2 ⟨"t1", JNum.nan⟩ (by decide)

/-! ### C4: daily windowing is a fixed 5-entry window -/

/-- C4: with at least 5 daily source entries the daily window has exactly 5
entries, entry `j` is built from source index `j` (its day label comes from
`daily.time[j]`), and the window does not depend on the current hour. -/
theorem daily_window_fixed (raw : RawPayload) (city country : String)
    (h1 h2 : Nat) (fmt : LocaleFmt) (h5 : 5 ≤ raw.daily.time.length) :
    (normalize raw city country h1 fmt).daily.length = 5
    ∧ (∀ j, j < 5 → (normalize raw city country h1 fmt).daily.get? j =
        some (dailyEntry raw.daily fmt.dayFmt j))
    ∧ (∀ j, j < 5 → ∃ s, raw.daily.time.get? j = some s ∧
        (dailyEntry raw.daily fmt.dayFmt j).day = fmt.dayFmt s)
    ∧ (normalize raw city country h1 fmt).daily = (normalize raw city country h2 fmt).daily := by
  refine ⟨by simp [normalize, dailyWindow], fun j hj => dailyWindow_get? _ _ j hj,
    fun j hj => ?_, rfl⟩
  have hjl : j < raw.daily.time.length := by omega
  refine ⟨raw.daily.time.get ⟨j, hjl⟩, List.get?_eq_get hjl, ?_⟩
  simp [dailyEntry, List.getElem?_eq_getElem hjl, List.get_eq_getElem]

/-- C4 witness: the fixed window at a concrete 5-entry daily series, compared
across two different hours of the day. -/
theorem daily_window_fixed_witness :
    (normalize fiveDayRaw "Tokyo" "" 7 fmtId).daily.length = 5
    ∧ (normalize fiveDayRaw "Tokyo" "" 7 fmtId).daily.get? 2 =
        some (dailyEntry fiveDayRaw.daily id 2)
    ∧ (∃ s, fiveDayRaw.daily.time.get? 2 = some s ∧
        (dailyEntry fiveDayRaw.daily id 2).day = id s)
    ∧ (normalize fiveDayRaw "Tokyo" "" 7 fmtId).daily =
        (normalize fiveDayRaw "Tokyo" "" 23 fmtId).daily := by
  have h := daily_window_fixed fiveDayRaw "Tokyo" "" 7 23 fmtId (by decide)
  exact ⟨h.1, h.2.1 2 (by decide), h.2.2.1 2 (by decide), h.2.2.2⟩

/-! ### C5: rounding of display values -/

/-- The rational 111/2 (= 55.5), written in lowest terms so that projections
reduce. -/
def halfQ : ℚ := ⟨111, 2, by decide, by decide⟩

/-- A payload whose current humidity is the non-integer 55.5. -/
def fracHumidityRaw : RawPayload :=
  { current := { nanCurrent with relative_humidity_2m := .num halfQ }
    hourly := { time := [], temperature_2m := [] }
    daily :=
      { time := []
        weather_code := []
        temperature_2m_max := []
        temperature_2m_min := []
        sunrise := []
        sunset := []
        uv_index_max := [] } }

/-- C5 counterexample: the humidity display value is copied from the raw
payload without `Math.round`, so a raw humidity of 55.5 yields a non-integer
humidity in the produced `WeatherData`, refuting "every numeric display value
... is an integer". -/
theorem humidity_not_rounded :
    (normalize fracHumidityRaw "X" "" 0 fmtId).humidity = JNum.num halfQ
    ∧ (JNum.num halfQ).isIntB = false :=
  ⟨rfl, rfl⟩

/-- C5 (amended): currentTemp, feelsLike, windSpeed, pressure and uvIndex are
rounded to integers at normalization time whenever the corresponding raw field
is a finite number; humidity alone is copied verbatim from the provider,
unrounded. -/
theorem rounding_amended (raw : RawPayload) (city country : String) (hour : Nat)
    (fmt : LocaleFmt) :
    (∀ q, raw.current.temperature_2m = .num q →
      (normalize raw city country hour fmt).currentTemp.isIntB = true)
    ∧ (∀ q, raw.current.apparent_temperature = .num q →
      (normalize raw city country hour fmt).feelsLike.isIntB = true)
    ∧ (∀ q, raw.current.wind_speed_10m = .num q →
      (normalize raw city country hour fmt).windSpeed.isIntB = true)
    ∧ (∀ q, raw.current.surface_pressure = .num q →
      (normalize raw city country hour fmt).pressure.isIntB = true)
    ∧ (∀ q, raw.daily.uv_index_max.get? 0 = some q →
      (normalize raw city country hour fmt).uvIndex.isIntB = true)
    ∧ (normalize raw city country hour fmt).humidity = raw.current.relative_humidity_2m := by
  refine ⟨fun q hq => ?_, fun q hq => ?_, fun q hq => ?_, fun q hq => ?_, fun q hq => ?_, rfl⟩
  case refine_5 =>
    have huv : listGetN raw.daily.uv_index_max 0 = .num q := by
      unfold listGetN
      rw [hq]
    simp [normalize, huv, jround_isIntB]
  all_goals simp [normalize, hq, jround_isIntB]

/-- A payload with finite numeric current fields and a present UV index. -/
def intFieldsRaw : RawPayload :=
  { current :=
      { temperature_2m := .num 20
        relative_humidity_2m := .num 50
        apparent_temperature := .num 19
        weather_code := .num 0
        surface_pressure := .num 1000
        wind_speed_10m := .num 5 }
    hourly := { time := [], temperature_2m := [] }
    daily :=
      { time := []
        weather_code := []
        temperature_2m_max := []
        temperature_2m_min := []
        sunrise := []
        sunset := []
        uv_index_max := [3] } }

/-- C5 witness: the amended statement at a concrete all-numeric payload. -/
theorem rounding_amended_witness :
    (normalize intFieldsRaw "X" "" 0 fmtId).currentTemp.isIntB = true
    ∧ (normalize intFieldsRaw "X" "" 0 fmtId).feelsLike.isIntB = true
    ∧ (normalize intFieldsRaw "X" "" 0 fmtId).windSpeed.isIntB = true
    ∧ (normalize intFieldsRaw "X" "" 0 fmtId).pressure.isIntB = true
    ∧ (normalize intFieldsRaw "X" "" 0 fmtId).uvIndex.isIntB = true
    ∧ (normalize intFieldsRaw "X" "" 0 fmtId).humidity =
        intFieldsRaw.current.relative_humidity_2m := by
  have h := rounding_amended intFieldsRaw "X" "" 0 fmtId
  exact ⟨h.1 20 rfl, h.2.1 19 rfl, h.2.2.1 5 rfl, h.2.2.2.1 1000 rfl,
    h.2.2.2.2.1 3 rfl, h.2.2.2.2.2⟩

/-! ### C1: quick summary failure policy -/

/-- C1 counterexample: when the quick-summary request itself rejects (transport
error or provider rejection), `getQuickSummary` propagates the rejection — the
caller does not receive an empty string. -/
theorem quickSummary_requestError_not_empty :
    getQuickSummary GenReply.requestError = Except.error JsErr.requestFailed
    ∧ getQuickSummary GenReply.requestError ≠ Except.ok "" :=
  ⟨rfl, fun h => Except.noConfusion h⟩

/-- C1 (amended): the empty-string fallback applies only to a resolved call
whose text is absent or empty; a rejected call propagates its error out of
`getQuickSummary` (the caller attaches no rejection handler) — but the main
snapshot flow never awaits the summary, so the snapshot and error state of
`fetchWeather` are the same whatever the summary call does. -/
theorem quickSummary_amended (st : AppState) (geo : GeoReply) (fc : ForecastReply)
    (q q' : GenReply) (input : String) (hour : Nat) (fmt : LocaleFmt) :
    (fetchWeatherStep st geo fc q input hour fmt).weather =
      (fetchWeatherStep st geo fc q' input hour fmt).weather
    ∧ (fetchWeatherStep st geo fc q input hour fmt).error =
      (fetchWeatherStep st geo fc q' input hour fmt).error
    ∧ getQuickSummary (GenReply.response none) = Except.ok ""
    ∧ getQuickSummary (GenReply.response (some "")) = Except.ok ""
    ∧ getQuickSummary GenReply.requestError = Except.error JsErr.requestFailed := by
  refine ⟨?_, ?_, rfl, by simp [getQuickSummary, jsOrEmpty], rfl⟩ <;>
    · unfold fetchWeatherStep
      cases getWeatherData geo fc input hour fmt with
      | error e => rfl
      | ok data =>
        cases getQuickSummary q with
        | ok s =>
          cases getQuickSummary q' with
          | ok t => rfl
          | error e => rfl
        | error e =>
          cases getQuickSummary q' with
          | ok t => rfl
          | error e2 => rfl

/-! ### C6: raw coordinate pairs skip geocoding -/

/-- C6: on an input that contains a comma whose first two trimmed segments both
parse as floats, the resolver ignores the geocoding environment entirely
(second component `false` = `searchCity` never invoked) and returns the parsed
pair with the fixed display name. -/
theorem coord_input_resolution (reply : GeoReply) (input : String) (a b : ℚ)
    (hc : ',' ∈ input.data)
    (h0 : parseFloat? (((jsSplitComma input).map jsTrim).getD 0 "") = some a)
    (h1 : parseFloat? (((jsSplitComma input).map jsTrim).getD 1 "") = some b) :
    resolveLocation reply input =
      (Except.ok { lat := a, lng := b, city := "Current Location", country := "" }, false) := by
  have hg : coordGuard input = some (a, b) := by
    unfold coordGuard
    rw [if_pos hc]
    simp only [h0, h1]
  unfold resolveLocation
  rw [hg]

/-- C6 witness: the end-to-end scenario input `"40.71, -74.01"`, against an
arbitrary geocoding environment. -/
theorem coord_input_resolution_witness :
    ∃ a b : ℚ, resolveLocation (GeoReply.results []) "40.71, -74.01" =
      (Except.ok { lat := a, lng := b, city := "Current Location", country := "" }, false) := by
  cases hpa : parseFloat? (((jsSplitComma "40.71, -74.01").map jsTrim).getD 0 "") with
  | none => exact absurd hpa (by decide)
  | some a =>
    cases hpb : parseFloat? (((jsSplitComma "40.71, -74.01").map jsTrim).getD 1 "") with
    | none => exact absurd hpb (by decide)
    | some b =>
      exact ⟨a, b,
        coord_input_resolution (GeoReply.results []) "40.71, -74.01" a b (by decide) hpa hpb⟩

/-! ### C7: non-coordinate inputs go through geocoding -/

/-- C7: on any input that is not a numeric coordinate pair the resolver invokes
the geocoding collaborator, fails with the not-found error exactly when the
returned candidate list is empty, and otherwise uses the first candidate's name
and coordinates. -/
theorem placename_resolution (reply : GeoReply) (input : String)
    (hg : coordGuard input = none) :
    (resolveLocation reply input).2 = true
    ∧ ((resolveLocation reply input).1 = Except.error "City not found" ↔
        searchCity reply input = [])
    ∧ ∀ r t, searchCity reply input = r :: t →
        (resolveLocation reply input).1 =
          Except.ok { lat := r.lat, lng := r.lng, city := r.name, country := r.location } := by
  unfold resolveLocation
  rw [hg]
  cases hs : searchCity reply input with
  | nil => simp
  | cons r t =>
    refine ⟨rfl, by simp, ?_⟩
    intro r' t' h
    injection h with h1 h2
    subst h1
    rfl

/-- A concrete geocoding candidate for `"Paris, France"`. -/
def parisItem : GeoItem :=
  { name := "Paris", admin1 := some "Ile-de-France", country := "France",
    latitude := 48, longitude := 2 }

/-- C7 witness: the ambiguous input `"Paris, France"` (segments fail float
parsing) goes to geocoding and uses the first candidate. -/
theorem placename_resolution_witness :
    (resolveLocation (GeoReply.results [parisItem]) "Paris, France").2 = true
    ∧ ((resolveLocation (GeoReply.results [parisItem]) "Paris, France").1 =
        Except.error "City not found" ↔
        searchCity (GeoReply.results [parisItem]) "Paris, France" = [])
    ∧ (resolveLocation (GeoReply.results [parisItem]) "Paris, France").1 =
        Except.ok
          { lat := (toCityResult parisItem).lat
            lng := (toCityResult parisItem).lng
            city := (toCityResult parisItem).name
            country := (toCityResult parisItem).location } := by
  have h := placename_resolution (GeoReply.results [parisItem]) "Paris, France" (by decide)
  exact ⟨h.1, h.2.1, h.2.2 (toCityResult parisItem) [] rfl⟩

/-! ### C8: deep analysis tolerates missing fields -/

/-- A parsed provider reply holding only the `advice` field. -/
def sparseAdviceJson : Json := .obj [("advice", .str "stay hydrated")]

/-- C8 counterexample: on a parsed object missing `outfit`, the analyze
operation succeeds but the missing field is left absent (`undefined`), not
substituted with the empty string. -/
theorem deep_missing_field_untouched :
    getDeepAnalysis (DeepReply.response true (some sparseAdviceJson)) =
      Except.ok sparseAdviceJson
    ∧ jGet sparseAdviceJson "outfit" = none
    ∧ jGet sparseAdviceJson "outfit" ≠ some (Json.str "") := by
  refine ⟨rfl, rfl, fun h => ?_⟩
  rw [show jGet sparseAdviceJson "outfit" = none from rfl] at h
  exact Option.noConfusion h

/-- C8 (amended): the analyze operation succeeds on every response whose text
parses as JSON (an absent or empty text is treated as the literal `"{}"`,
parsing to the empty object), and the parsed value is returned unchanged —
missing fields stay absent/`undefined` rather than becoming empty strings. -/
theorem deep_analysis_lenient (j : Json) (p : Option Json) (k : String) :
    getDeepAnalysis (DeepReply.response true (some j)) = Except.ok j
    ∧ getDeepAnalysis (DeepReply.response false p) = Except.ok (Json.obj [])
    ∧ jGet (Json.obj []) k = none :=
  ⟨rfl, rfl, rfl⟩

/-! ### C9: deep analysis parse failure leaves state unchanged -/

/-- C9: a provider text that fails to parse makes `getDeepAnalysis` fail with
the parse (analysis) error; the caller's handler catches and only logs it, so
the stored analysis result is unchanged — in particular it stays absent when it
was absent before the request. -/
theorem deep_parse_failure_state (st : AppState) (w : WeatherData)
    (hw : st.weather = some w) :
    getDeepAnalysis (DeepReply.response true none) = Except.error JsErr.jsonParseError
    ∧ (handleDeepAnalysis st (DeepReply.response true none)).analysis = st.analysis
    ∧ (st.analysis = none →
        (handleDeepAnalysis st (DeepReply.response true none)).analysis = none) := by
  refine ⟨rfl, ?_, fun ha => ?_⟩
  · unfold handleDeepAnalysis
    rw [hw]
    rfl
  · unfold handleDeepAnalysis
    rw [hw]
    exact ha

/-- A state holding a snapshot and no analysis yet. -/
def stateWithWeather : AppState :=
  { weather := some (normalize shortDailyRaw "New York" "" 0 fmtId)
    error := none
    analysis := none
    quickSummary := ""
    loading := false
    aiLoading := true }

/-- C9 witness: the malformed-JSON scenario at a concrete pre-request state. -/
theorem deep_parse_failure_state_witness :
    getDeepAnalysis (DeepReply.response true none) = Except.error JsErr.jsonParseError
    ∧ (handleDeepAnalysis stateWithWeather (DeepReply.response true none)).analysis =
        stateWithWeather.analysis
    ∧ (handleDeepAnalysis stateWithWeather (DeepReply.response true none)).analysis = none := by
  have h := deep_parse_failure_state stateWithWeather
    (normalize shortDailyRaw "New York" "" 0 fmtId) rfl
  exact ⟨h.1, h.2.1, h.2.2 rfl⟩

/-! ### C10: city search never throws; outage equals no-match -/

/-- C10: `searchCity` returns the empty list on short queries, on a transport
or JSON failure, and on a response without a results array; consequently the
resolver cannot distinguish a geocoding outage from a genuine no-match — both
produce the same not-found error. -/
theorem searchCity_defensive (reply : GeoReply) (q input : String) :
    (q = "" ∨ q.length < 2 → searchCity reply q = [])
    ∧ searchCity GeoReply.transportError q = []
    ∧ searchCity GeoReply.missingResults q = []
    ∧ resolveLocation GeoReply.transportError input =
        resolveLocation (GeoReply.results []) input
    ∧ (coordGuard input = none →
        (resolveLocation GeoReply.transportError input).1 = Except.error "City not found") := by
  have hempty : ∀ r : GeoReply, (∀ items, r = GeoReply.results items → items = []) →
      searchCity r input = [] := by
    intro r hr
    unfold searchCity
    split
    · rfl
    · cases r with
      | transportError => rfl
      | missingResults => rfl
      | results items => rw [hr items rfl]; rfl
  refine ⟨fun h => ?_, ?_, ?_, ?_, fun hg => ?_⟩
  · unfold searchCity
    rw [if_pos h]
  · unfold searchCity
    split <;> rfl
  · unfold searchCity
    split <;> rfl
  · unfold resolveLocation
    cases hab : coordGuard input with
    | some ab =>
      obtain ⟨a, b⟩ := ab
      rfl
    | none =>
      rw [hempty GeoReply.transportError (by intro items h; cases h),
        hempty (GeoReply.results []) (by intro items h; injection h with h1; exact h1.symm)]
  · unfold resolveLocation
    rw [hg, hempty GeoReply.transportError (by intro items h; cases h)]

/-- C10 witness: a one-character query, a transport outage, a missing results
array, and the outage/no-match equivalence at the query `"Tokyo"`. -/
theorem searchCity_defensive_witness :
    searchCity (GeoReply.results [parisItem]) "a" = []
    ∧ searchCity GeoReply.transportError "Tokyo" = []
    ∧ searchCity GeoReply.missingResults "Tokyo" = []
    ∧ resolveLocation GeoReply.transportError "Tokyo" =
        resolveLocation (GeoReply.results []) "Tokyo"
    ∧ (resolveLocation GeoReply.transportError "Tokyo").1 = Except.error "City not found" := by
  have ha := searchCity_defensive (GeoReply.results [parisItem]) "a" "Tokyo"
  have hb := searchCity_defensive GeoReply.transportError "Tokyo" "Tokyo"
  exact ⟨ha.1 (by decide), hb.2.1, hb.2.2.1, ha.2.2.2.1, ha.2.2.2.2 (by decide)⟩

end AetherWeather
